import Mathlib

/-!
Verification of the Dictat medical-dictation workflow service.

Shallow embedding of the parts of the code base under scrutiny:
the dictation claim / unclaim / update endpoints, the secretary work
queue, the transcription edit / submit endpoints, the byte-range audio
streaming service, the JWT token layer and the OPA authorization
fallback.  Database rows are plain records, the request handlers are
pure functions from the fetched row(s) and the calling user to an
`Except` of an error or the updated row(s); time is passed explicitly.
-/

namespace Dictat

/-- Error taxonomy of the HTTP handlers; each constructor corresponds to
the HTTP status code raised by the source (`HTTPException(status_code=...)`). -/
inductive ApiError
  | notFound            -- 404
  | forbidden           -- 403
  | conflict            -- 409
  | badRequest          -- 400
  | unauthorized        -- 401
  | validationFailed    -- 422
  | rangeNotSatisfiable -- 416
  | internalError       -- 500
  deriving DecidableEq, Repr

/-- HTTP status code carried by each error, as in the source. -/
def ApiError.code : ApiError → Nat
  | .notFound => 404
  | .forbidden => 403
  | .conflict => 409
  | .badRequest => 400
  | .unauthorized => 401
  | .validationFailed => 422
  | .rangeNotSatisfiable => 416
  | .internalError => 500

/-- `app/models/user.py`: `UserRole` enum. -/
inductive UserRole
  | doctor
  | secretary
  | admin
  deriving DecidableEq, Repr

/-- The fields of `app/models/user.py`: `User` that the endpoints consult. -/
structure User where
  id : Nat
  role : UserRole
  is_active : Bool
  deriving DecidableEq, Repr

/-- `app/models/dictation.py`: `DictationStatus` enum (declaration order
PENDING, ASSIGNED, IN_PROGRESS, COMPLETED, REVIEWED, REJECTED). -/
inductive DictationStatus
  | pending
  | assigned
  | in_progress
  | completed
  | reviewed
  | rejected
  deriving DecidableEq, Repr

/-- `app/models/dictation.py`: `DictationPriority` enum (declaration order
LOW, NORMAL, HIGH, URGENT; the alembic migration creates the PostgreSQL
enum with its values in exactly this order, which is the order used by
`ORDER BY priority`). -/
inductive DictationPriority
  | low
  | normal
  | high
  | urgent
  deriving DecidableEq, Repr

/-- Rank of a priority inside the PostgreSQL enum `dictationpriority`:
position in declaration order, so that `priority DESC` sorts
urgent > high > normal > low. -/
def priorityRank : DictationPriority → Nat
  | .low => 0
  | .normal => 1
  | .high => 2
  | .urgent => 3

/-- `app/models/dictation.py`: the `Dictation` row.  Timestamps are
naturals (seconds); nullable columns are `Option`. -/
structure Dictation where
  id : Nat
  doctor_id : Nat
  secretary_id : Option Nat
  file_path : String
  file_name : String
  file_size : Nat
  mime_type : String
  status : DictationStatus
  priority : DictationPriority
  title : Option String
  patient_reference : Option String
  notes : Option String
  created_at : Nat
  claimed_at : Option Nat
  completed_at : Option Nat
  deleted_at : Option Nat
  deriving DecidableEq, Repr

/-- `app/models/transcription.py`: `TranscriptionStatus` enum. -/
inductive TranscriptionStatus
  | draft
  | submitted
  | approved
  | rejected
  | revised
  deriving DecidableEq, Repr

/-- `app/models/transcription.py`: the `Transcription` row. -/
structure Transcription where
  id : Nat
  dictation_id : Nat
  secretary_id : Nat
  reviewer_id : Option Nat
  content : String
  version : Nat
  status : TranscriptionStatus
  review_notes : Option String
  rejection_reason : Option String
  submitted_at : Option Nat
  reviewed_at : Option Nat
  last_autosave_at : Option Nat
  deriving DecidableEq, Repr

/-- Value of an `Except` result, falling back to a default on error.
Used to express that a failed handler leaves the stored row unchanged. -/
def resultOr (r : Except ApiError α) (dflt : α) : α :=
  match r with
  | .ok a => a
  | .error _ => dflt

/-! ### claim_dictation (`app/api/v1/endpoints/dictations.py` lines 467-521)

The handler body, given the row fetched for the dictation id (`none`
when the `SELECT` found nothing), the caller (already past
`require_role(UserRole.SECRETARY)`, which we embed as the first check)
and the current time. -/

/-- Embedding of `claim_dictation`: role gate, 404 on missing or
soft-deleted row, 409 unless status is pending or assigned, 409 when
already claimed by a different secretary, otherwise the row is updated
to `secretary_id = caller`, `status = in_progress`, `claimed_at = now`. -/
def claim_dictation (found : Option Dictation) (caller : User) (now : Nat) :
    Except ApiError Dictation :=
  if caller.role ≠ .secretary then .error .forbidden
  else
    match found with
    | none => .error .notFound
    | some d =>
      if d.deleted_at ≠ none then .error .notFound
      else if ¬ (d.status = .pending ∨ d.status = .assigned) then .error .conflict
      else if d.secretary_id ≠ none ∧ d.secretary_id ≠ some caller.id then .error .conflict
      else .ok { d with
                  secretary_id := some caller.id,
                  status := .in_progress,
                  claimed_at := some now }

/-- The dictation row as stored after a claim attempt: the updated row on
success, the untouched row otherwise (a raised `HTTPException` aborts the
handler before any mutation). -/
def dictationAfterClaim (d : Dictation) (caller : User) (now : Nat) : Dictation :=
  resultOr (claim_dictation (some d) caller now) d

/-! ### unclaim_dictation (`app/api/v1/endpoints/dictations.py` lines 524-575)

Note the dependency `require_role(UserRole.SECRETARY)`: it runs before
the handler body and rejects every non-secretary caller, including
admins, even though the body contains an explicit admin branch and the
docstring grants admins access. -/

/-- Embedding of `unclaim_dictation` including its
`require_role(UserRole.SECRETARY)` gate. -/
def unclaim_dictation (found : Option Dictation) (caller : User) :
    Except ApiError Dictation :=
  if caller.role ≠ .secretary then .error .forbidden
  else
    match found with
    | none => .error .notFound
    | some d =>
      if d.deleted_at ≠ none then .error .notFound
      else if d.secretary_id ≠ some caller.id ∧ caller.role ≠ .admin then .error .forbidden
      else if d.secretary_id = none then .error .badRequest
      else .ok { d with
                  secretary_id := none,
                  status := .pending,
                  claimed_at := none }

/-! ### get_work_queue (`app/api/v1/endpoints/dictations.py` lines 252-316)

The query built on lines 277-301: not deleted, status in
{pending, assigned}, `secretary_id IS NULL`, optional priority filter,
`ORDER BY priority DESC, created_at ASC`.  We model the query result
(before the `OFFSET/LIMIT` pagination of line 304) as a filter followed
by a sort of the table. -/

/-- Row filter of the work-queue query. -/
def inWorkQueue (d : Dictation) : Bool :=
  d.deleted_at = none ∧
    (d.status = .pending ∨ d.status = .assigned) ∧
    d.secretary_id = none

/-- Optional `priority` query-string filter. -/
def priorityMatches (pf : Option DictationPriority) (d : Dictation) : Bool :=
  match pf with
  | none => true
  | some p => d.priority = p

/-- The sort key of `ORDER BY priority DESC, created_at ASC`: `a` comes no
later than `b` when `a` has strictly higher priority, or equal priority
and an earlier-or-equal creation time. -/
def queueOrder (a b : Dictation) : Prop :=
  priorityRank b.priority < priorityRank a.priority ∨
    (priorityRank a.priority = priorityRank b.priority ∧ a.created_at ≤ b.created_at)

instance : DecidableRel queueOrder := fun a b => by
  unfold queueOrder; infer_instance

instance : IsTotal Dictation queueOrder where
  total a b := by unfold queueOrder; omega

instance : IsTrans Dictation queueOrder where
  trans a b c := by unfold queueOrder; omega

/-- Embedding of the work-queue query result: the rows passing the filter,
sorted by `queueOrder` (the database returns the filtered rows in some
order satisfying the `ORDER BY` key; we take the sorted list). -/
def get_work_queue (table : List Dictation) (pf : Option DictationPriority) :
    List Dictation :=
  List.insertionSort queueOrder
    (table.filter fun d => inWorkQueue d && priorityMatches pf d)

/-! ### update_transcription (`app/api/v1/endpoints/transcriptions.py` lines 160-238)

Content update with autosave support.  The status gate on line 209
admits `DRAFT` and `REJECTED` (and only those); an edit performed while
`REJECTED` flips the status to `REVISED` (lines 227-228). -/

/-- Embedding of `update_transcription`, given the fetched row, the
caller (past `require_role(UserRole.SECRETARY)`), the new content, the
`is_autosave` query flag and the current time. -/
def update_transcription (found : Option Transcription) (caller : User)
    (content : String) (is_autosave : Bool) (now : Nat) :
    Except ApiError Transcription :=
  if caller.role ≠ .secretary then .error .forbidden
  else
    match found with
    | none => .error .notFound
    | some t =>
      if t.secretary_id ≠ caller.id then .error .forbidden
      else if ¬ (t.status = .draft ∨ t.status = .rejected) then .error .conflict
      else
        let t1 := { t with content := content }
        let t2 := if is_autosave then { t1 with last_autosave_at := some now } else t1
        let t3 := if t2.status = .rejected then { t2 with status := .revised } else t2
        .ok t3

/-! ### submit_transcription (`app/api/v1/endpoints/transcriptions.py` lines 241-317)

Submission validates ownership, status (draft or revised), non-blank
content, then marks the transcription submitted and cascades the linked
dictation (when its row is found) to completed. -/

/-- The content emptiness check of line 290:
`not transcription.content or len(transcription.content.strip()) == 0`.
Stripping leaves the empty string exactly when every character is
whitespace, so the second disjunct is modelled as an all-whitespace test
over the characters. -/
def contentBlank (content : String) : Bool :=
  content = "" || content.data.all Char.isWhitespace

/-- Embedding of `submit_transcription`.  `foundD` is the row fetched for
`transcription.dictation_id`; the handler updates it only when present
(`if dictation:`).  The result pairs the updated transcription with the
dictation row as left by the handler. -/
def submit_transcription (foundT : Option Transcription) (foundD : Option Dictation)
    (caller : User) (now : Nat) :
    Except ApiError (Transcription × Option Dictation) :=
  if caller.role ≠ .secretary then .error .forbidden
  else
    match foundT with
    | none => .error .notFound
    | some t =>
      if t.secretary_id ≠ caller.id then .error .forbidden
      else if ¬ (t.status = .draft ∨ t.status = .revised) then .error .badRequest
      else if contentBlank t.content then .error .validationFailed
      else
        let t2 := { t with status := .submitted, submitted_at := some now }
        let d2 := foundD.map fun d =>
          { d with status := DictationStatus.completed, completed_at := some now }
        .ok (t2, d2)

/-- The stored pair (transcription, linked dictation) after a submit
attempt: updated on success, untouched on error. -/
def stateAfterSubmit (t : Transcription) (d : Option Dictation) (caller : User)
    (now : Nat) : Transcription × Option Dictation :=
  resultOr (submit_transcription (some t) d caller now) (t, d)

/-! ### Audio streaming (`app/services/storage.py` lines 127-184 and
`app/api/v1/endpoints/dictations.py` lines 359-464)

A stored file is a list of bytes.  `readChunks` is the read loop of
`stream_audio_file`: repeatedly read `min chunkSize remainingToRead`
bytes from the current position, stopping on a short read or when the
requested amount has been produced. -/

/-- The chunked read loop of `stream_audio_file` (lines 172-184), already
positioned at the start byte: `rest` is the file content from the seek
position onward. -/
def readChunks (rest : List Nat) (bytesToRead chunkSize : Nat) :
    List (List Nat) :=
  let k := min chunkSize bytesToRead
  let chunk := rest.take k
  if h : chunk = [] then []
  else chunk :: readChunks (rest.drop k) (bytesToRead - chunk.length) chunkSize
termination_by rest.length
decreasing_by
  simp only [List.length_drop]
  rw [List.take_eq_nil_iff] at h
  push_neg at h
  have hr : 0 < rest.length := List.length_pos.mpr h.2
  have hk : 0 < k := Nat.pos_of_ne_zero h.1
  omega

/-- Invalid-range error of the storage service (`ValueError` on line 162). -/
inductive RangeError
  | invalidRange
  deriving DecidableEq, Repr

/-- Embedding of `StorageService.stream_audio_file` for a file that
exists: default the bounds (`start_byte = 0`, `end_byte = file_size - 1`),
raise on `start_byte < 0 or end_byte >= file_size or start_byte > end_byte`,
otherwise produce the chunk sequence.  Byte positions are integers, as in
the source. -/
def stream_audio_file (data : List Nat) (startByte endByte : Option Int)
    (chunkSize : Nat) : Except RangeError (List (List Nat)) :=
  let fileSize : Int := data.length
  let s := startByte.getD 0
  let e := endByte.getD (fileSize - 1)
  if s < 0 ∨ e ≥ fileSize ∨ s > e then .error .invalidRange
  else .ok (readChunks (data.drop s.toNat) (e - s + 1).toNat chunkSize)

/-- A parsed `Range` header `bytes=<start>-[<end>]`: the regex
`bytes=(\d+)-(\d*)` guarantees a non-negative start and an optional
non-negative end. -/
structure RangeHeader where
  start : Nat
  stop : Option Nat
  deriving DecidableEq, Repr

/-- Embedding of the range handling of the `stream_audio` endpoint
(lines 411-457), for a found, authorized dictation whose stored file is
`data`: returns the HTTP status code (200 or 206) paired with the bytes
streamed to the client (the concatenation of the yielded chunks). -/
def stream_audio (data : List Nat) (range : Option RangeHeader) (chunkSize : Nat) :
    Except ApiError (Nat × List Nat) :=
  let fileSize := data.length
  match range with
  | none =>
    match stream_audio_file data none none chunkSize with
    | .error _ => .error .internalError
    | .ok chunks => .ok (200, chunks.flatten)
  | some r =>
    let startByte := r.start
    let endByte := match r.stop with
      | some e => e
      | none => fileSize - 1
    if startByte ≥ fileSize ∨ endByte ≥ fileSize ∨ startByte > endByte then
      .error .rangeNotSatisfiable
    else
      match stream_audio_file data (some startByte) (some endByte) chunkSize with
      | .error _ => .error .internalError
      | .ok chunks => .ok (206, chunks.flatten)

/-! ### JWT tokens (`app/core/security.py` lines 34-109 and
`app/api/v1/endpoints/auth.py`)

A JWT payload is an ordered dictionary of claims; values are strings or
numbers.  Signing is modelled with an idealized MAC: the signature of a
token records exactly the secret, algorithm and payload it was computed
over, and verification succeeds precisely when those match — this captures
that HMAC forging, payload tampering, or verifying with a different key or
algorithm makes the signature check fail, while abstracting the hash. -/

/-- A JSON claim value (the payloads in this code base hold strings and
integer timestamps). -/
inductive JVal
  | s (v : String)
  | n (v : Nat)
  deriving DecidableEq, Repr

/-- A JWT payload: association list in insertion order, as a Python dict. -/
abbrev Claims := List (String × JVal)

/-- Python `dict.update` for a single key: overwrite in place if the key
exists, append otherwise. -/
def setClaim (p : Claims) (k : String) (v : JVal) : Claims :=
  if p.any (fun kv => kv.fst = k) then
    p.map fun kv => if kv.fst = k then (k, v) else kv
  else p ++ [(k, v)]

/-- Dictionary lookup, first match. -/
def getClaim (p : Claims) (k : String) : Option JVal :=
  (p.find? fun kv => kv.fst = k).map Prod.snd

/-- Idealized MAC signature: records what was signed and with what key. -/
structure Sig where
  secret : String
  alg : String
  payload : Claims
  deriving DecidableEq, Repr

/-- A token string as presented to `jwt.decode`: either a structurally
well-formed JWT (header algorithm, payload, signature) or a string that
does not parse as a JWT at all. -/
inductive Token
  | signed (alg : String) (payload : Claims) (sig : Sig)
  | malformed (raw : String)
  deriving DecidableEq, Repr

/-- Model of `jose.jwt.encode(payload, secret, algorithm)`. -/
def jwtEncode (payload : Claims) (secret alg : String) : Token :=
  .signed alg payload ⟨secret, alg, payload⟩

/-- Model of `jose.jwt.decode(token, secret, algorithms=[alg])` at time
`now`: fails on a malformed token, an algorithm outside the accepted
list, a signature that does not verify, or a passed `exp` claim;
otherwise returns the payload.  A missing `exp` claim skips the expiry
check (as in python-jose); a non-numeric `exp` raises (fails). -/
def jwtDecode (tok : Token) (secret alg : String) (now : Nat) : Option Claims :=
  match tok with
  | .malformed _ => none
  | .signed a p sg =>
    if a = alg ∧ sg = ⟨secret, a, p⟩ then
      match getClaim p "exp" with
      | some (.n e) => if e < now then none else some p
      | some (.s _) => none
      | none => some p
    else none

/-- The token-relevant fields of `app/core/config.py`: `Settings`. -/
structure SecuritySettings where
  SECRET_KEY : String
  ALGORITHM : String
  ACCESS_TOKEN_EXPIRE_MINUTES : Nat
  REFRESH_TOKEN_EXPIRE_DAYS : Nat
  deriving DecidableEq, Repr

/-- Embedding of `create_access_token` (`security.py` lines 34-62): copy
the data, set `exp` to now plus the delta (default from settings, in
minutes), set `type` to `access`, sign. -/
def create_access_token (cfg : SecuritySettings) (data : Claims) (now : Nat)
    (expires_delta : Option Nat) : Token :=
  let expire := match expires_delta with
    | some d => now + d
    | none => now + cfg.ACCESS_TOKEN_EXPIRE_MINUTES * 60
  let toEncode := setClaim (setClaim data "exp" (.n expire)) "type" (.s "access")
  jwtEncode toEncode cfg.SECRET_KEY cfg.ALGORITHM

/-- Embedding of `create_refresh_token` (`security.py` lines 65-86). -/
def create_refresh_token (cfg : SecuritySettings) (data : Claims) (now : Nat) :
    Token :=
  let expire := now + cfg.REFRESH_TOKEN_EXPIRE_DAYS * 86400
  let toEncode := setClaim (setClaim data "exp" (.n expire)) "type" (.s "refresh")
  jwtEncode toEncode cfg.SECRET_KEY cfg.ALGORITHM

/-- Embedding of `verify_token` (`security.py` lines 89-109): decode with
the configured secret and algorithm, returning `none` on any `JWTError`.
Note: it performs no check of the `type` claim. -/
def verify_token (cfg : SecuritySettings) (tok : Token) (now : Nat) :
    Option Claims :=
  jwtDecode tok cfg.SECRET_KEY cfg.ALGORITHM now

/-- Embedding of `get_current_user` (`auth.py` lines 257-316): verify the
token, require the `type` claim to equal `access`, parse the `sub` claim
(rejecting a falsy or non-integer value as Python does), look the user
up, and require the account to be active.  `findUser` stands for the
database lookup. -/
def get_current_user (cfg : SecuritySettings) (tok : Token) (now : Nat)
    (findUser : Nat → Option User) : Except ApiError User :=
  match verify_token cfg tok now with
  | none => .error .unauthorized
  | some payload =>
    if ¬ (getClaim payload "type" = some (.s "access")) then .error .unauthorized
    else
      match getClaim payload "sub" with
      | none => .error .unauthorized
      | some (.s sub) =>
        if sub = "" then .error .unauthorized
        else
          match sub.toNat? with
          | none => .error .unauthorized
          | some uid =>
            match findUser uid with
            | none => .error .unauthorized
            | some u => if ¬ u.is_active then .error .forbidden else .ok u
      | some (.n uid) =>
        if uid = 0 then .error .unauthorized
        else
          match findUser uid with
          | none => .error .unauthorized
          | some u => if ¬ u.is_active then .error .forbidden else .ok u

/-- Embedding of the token-validation prefix of `refresh_access_token`
(`auth.py` lines 161-234): verify the refresh token and require its
`type` claim to equal `refresh`; on success issue a fresh access token
for the (active) user found under the `sub` claim. -/
def refresh_access_token (cfg : SecuritySettings) (tok : Token) (now : Nat)
    (findUser : Nat → Option User) : Except ApiError Token :=
  match verify_token cfg tok now with
  | none => .error .unauthorized
  | some payload =>
    if ¬ (getClaim payload "type" = some (.s "refresh")) then .error .unauthorized
    else
      let uid := match getClaim payload "sub" with
        | some (.s sub) => sub.toNat?.getD 0
        | some (.n v) => v
        | none => 0
      match findUser uid with
      | none => .error .unauthorized
      | some u =>
        if ¬ u.is_active then .error .forbidden
        else .ok (create_access_token cfg [("sub", .s (toString u.id))] now none)

/-! ### OPA authorization (`app/services/opa.py`)

`evaluate_policy` posts the input document to the policy service; an
`httpx.HTTPError` (transport failure or timeout) falls back to
`_fallback_authorization`; any other exception raises `OPAError`.  We
model the outcome of the HTTP interaction as a value. -/

/-- Outcome of the HTTP POST to the policy evaluator. -/
inductive OPAResponse
  | success (result : Bool)
  | transportFailure
  | otherFailure
  deriving DecidableEq, Repr

/-- Embedding of `OPAClient._fallback_authorization` (lines 121-157),
over the same string-typed role/action/resource parameters the source
receives. -/
def fallback_authorization (user_role action resource_type : String)
    (user_id : Nat) (resource_owner_id : Option Nat) : Bool :=
  if user_role = "admin" then true
  else if resource_type = "dictation" ∧
      (action = "create" ∨ action = "read" ∨ action = "update" ∨ action = "delete") ∧
      user_role = "doctor" then
    resource_owner_id = none ∨ resource_owner_id = some user_id
  else if resource_type = "dictation" ∧ (action = "read" ∨ action = "claim") ∧
      user_role = "secretary" then true
  else if resource_type = "transcription" ∧
      (action = "create" ∨ action = "read" ∨ action = "update" ∨ action = "submit") ∧
      user_role = "secretary" then
    resource_owner_id = none ∨ resource_owner_id = some user_id
  else if resource_type = "transcription" ∧
      (action = "read" ∨ action = "approve" ∨ action = "reject") ∧
      user_role = "doctor" then true
  else false

/-- Error raised by `evaluate_policy` on non-transport failures. -/
inductive OPAFault
  | opaError
  deriving DecidableEq, Repr

/-- Embedding of `OPAClient.evaluate_policy` (lines 39-119), given the
outcome of the HTTP call: a successful response yields its boolean
result; an `httpx.HTTPError` silently falls back to the local rule
table; any other failure raises `OPAError`. -/
def evaluate_policy (response : OPAResponse) (user_role action resource_type : String)
    (user_id : Nat) (resource_owner_id : Option Nat) : Except OPAFault Bool :=
  match response with
  | .success result => .ok result
  | .transportFailure =>
    .ok (fallback_authorization user_role action resource_type user_id resource_owner_id)
  | .otherFailure => .error .opaError

/-- Modelled from the claim text (C9): the fallback rule table as the
specification words it — admin is allowed everything; a doctor may
create/read/update/delete dictations they own; a secretary may read and
claim any dictation; a secretary may create/read/update/submit
transcriptions they own; a doctor may read/approve/reject any
transcription; everything else is denied.  Ownership of a resource whose
owner is not supplied (`resource_owner_id = none`, as for `create`)
counts as owned by the caller. -/
def specFallbackRules (user_role action resource_type : String)
    (user_id : Nat) (resource_owner_id : Option Nat) : Prop :=
  user_role = "admin" ∨
  (resource_type = "dictation" ∧ user_role = "doctor" ∧
    (action = "create" ∨ action = "read" ∨ action = "update" ∨ action = "delete") ∧
    (resource_owner_id = none ∨ resource_owner_id = some user_id)) ∨
  (resource_type = "dictation" ∧ user_role = "secretary" ∧
    (action = "read" ∨ action = "claim")) ∨
  (resource_type = "transcription" ∧ user_role = "secretary" ∧
    (action = "create" ∨ action = "read" ∨ action = "update" ∨ action = "submit") ∧
    (resource_owner_id = none ∨ resource_owner_id = some user_id)) ∨
  (resource_type = "transcription" ∧ user_role = "doctor" ∧
    (action = "read" ∨ action = "approve" ∨ action = "reject"))

instance (r a t : String) (u : Nat) (o : Option Nat) :
    Decidable (specFallbackRules r a t u o) := by
  unfold specFallbackRules; infer_instance

/-! ### update_dictation (`app/api/v1/endpoints/dictations.py` lines 578-638)

Metadata update.  `update_data.model_dump(exclude_unset=True)` yields
only the fields supplied by the client; the loop applies each one with
`setattr`, silently skipping `status` for non-admin callers. -/

/-- The `DictationUpdate` request schema
(`app/schemas/dictation.py` lines 42-62); a field is `none` when the
client did not supply it (`exclude_unset`). -/
structure DictationUpdate where
  title : Option String := none
  patient_reference : Option String := none
  notes : Option String := none
  priority : Option DictationPriority := none
  status : Option DictationStatus := none
  deriving DecidableEq, Repr

/-- Embedding of `update_dictation`, given the fetched row, the caller,
the result of the `check_resource_permission` OPA call (`permAllowed`)
and the parsed request body. -/
def update_dictation (found : Option Dictation) (caller : User)
    (permAllowed : Bool) (upd : DictationUpdate) : Except ApiError Dictation :=
  match found with
  | none => .error .notFound
  | some d =>
    if d.deleted_at ≠ none then .error .notFound
    else if ¬ permAllowed then .error .forbidden
    else
      let d1 := match upd.title with
        | some v => { d with title := some v }
        | none => d
      let d2 := match upd.patient_reference with
        | some v => { d1 with patient_reference := some v }
        | none => d1
      let d3 := match upd.notes with
        | some v => { d2 with notes := some v }
        | none => d2
      let d4 := match upd.priority with
        | some v => { d3 with priority := v }
        | none => d3
      let d5 := match upd.status with
        | some v => if caller.role = .admin then { d4 with status := v } else d4
        | none => d4
      .ok d5

/-! ## Sample rows used by witnesses and counterexamples -/

/-- A live pending unclaimed dictation, owned by doctor 2. -/
def dict0 : Dictation :=
  { id := 1, doctor_id := 2, secretary_id := none,
    file_path := "2/a.mp3", file_name := "a.mp3", file_size := 1000,
    mime_type := "audio/mpeg", status := .pending, priority := .normal,
    title := none, patient_reference := none, notes := none,
    created_at := 100, claimed_at := none, completed_at := none,
    deleted_at := none }

/-- The dictation `dict0` once claimed by secretary 5. -/
def dictClaimed : Dictation :=
  { dict0 with secretary_id := some 5, status := .in_progress,
               claimed_at := some 150 }

/-- Secretary user with id 5. -/
def sec5 : User := { id := 5, role := .secretary, is_active := true }

/-- Admin user with id 9. -/
def admin9 : User := { id := 9, role := .admin, is_active := true }

/-- A draft transcription authored by secretary 5 for dictation 1. -/
def tDraft : Transcription :=
  { id := 1, dictation_id := 1, secretary_id := 5, reviewer_id := none,
    content := "Patient shows improvement.", version := 1,
    status := .draft, review_notes := none, rejection_reason := none,
    submitted_at := none, reviewed_at := none, last_autosave_at := none }

/-- The same transcription in `revised` state. -/
def tRevised : Transcription := { tDraft with status := .revised }

/-- A draft transcription whose content is only whitespace. -/
def tBlank : Transcription := { tDraft with content := "   " }

/-- Token settings with the source's defaults (30-minute access tokens,
7-day refresh tokens, HS256). -/
def cfg0 : SecuritySettings :=
  { SECRET_KEY := "dev-secret-key", ALGORITHM := "HS256",
    ACCESS_TOKEN_EXPIRE_MINUTES := 30, REFRESH_TOKEN_EXPIRE_DAYS := 7 }

/-- The claims the login endpoint puts into tokens for secretary 5. -/
def data0 : Claims :=
  [("sub", .s "5"), ("email", .s "sec@hospital.test"),
   ("role", .s "secretary")]

/-! ## C1: the claim operation -/

/-- C1: for a live dictation whose status is pending or assigned and
whose `secretary_id` is null or already the caller, a claim by a
secretary succeeds and sets `secretary_id` to the caller, status to
`in_progress` and `claimed_at` to now; for a dictation already claimed
by a different secretary, the attempt fails with Conflict and leaves
every field unchanged. -/
theorem claim_contract (d : Dictation) (caller : User) (now : Nat)
    (hrole : caller.role = .secretary) (hlive : d.deleted_at = none) :
    ((d.status = .pending ∨ d.status = .assigned) →
      (d.secretary_id = none ∨ d.secretary_id = some caller.id) →
      claim_dictation (some d) caller now =
        .ok { d with secretary_id := some caller.id,
                     status := .in_progress,
                     claimed_at := some now }) ∧
    (∀ other : Nat, d.secretary_id = some other → other ≠ caller.id →
      claim_dictation (some d) caller now = .error .conflict ∧
      dictationAfterClaim d caller now = d) := by
  constructor
  · intro hst hsec
    rcases hsec with h0 | h0 <;> simp [claim_dictation, hrole, hlive, hst, h0]
  · intro other hother hne
    have hc : claim_dictation (some d) caller now = .error .conflict := by
      by_cases hst : d.status = .pending ∨ d.status = .assigned
      · simp [claim_dictation, hrole, hlive, hst, hother]
        intro heq
        exact absurd heq hne
      · simp [claim_dictation, hrole, hlive, hst]
    exact ⟨hc, by simp [dictationAfterClaim, resultOr, hc]⟩

/-- Witness for C1: secretary 5 claims the pending unclaimed `dict0` at
time 200; and secretary 7 fails with Conflict on the dictation already
claimed by secretary 5, leaving it unchanged. -/
theorem claim_contract_witness :
    claim_dictation (some dict0) sec5 200 =
      .ok { dict0 with secretary_id := some 5, status := .in_progress,
                       claimed_at := some 200 } ∧
    claim_dictation (some dictClaimed) ⟨7, .secretary, true⟩ 300 =
      .error .conflict ∧
    dictationAfterClaim dictClaimed ⟨7, .secretary, true⟩ 300 = dictClaimed :=
  ⟨(claim_contract dict0 sec5 200 rfl rfl).1 (Or.inl rfl) (Or.inl rfl),
   ((claim_contract dictClaimed ⟨7, .secretary, true⟩ 300 rfl rfl).2
     5 rfl (by decide)).1,
   ((claim_contract dictClaimed ⟨7, .secretary, true⟩ 300 rfl rfl).2
     5 rfl (by decide)).2⟩

/-! ## C2: work-queue ordering -/

/-- C2: the work-queue query result consists exactly of the non-deleted,
unclaimed dictations with status pending or assigned, and is sorted with
priority rank descending (urgent > high > normal > low, the ranks being
3 > 2 > 1 > 0) as the primary key and creation time ascending as the
secondary key. -/
theorem work_queue_ordering (table : List Dictation)
    (pf : Option DictationPriority) :
    List.Pairwise
      (fun a b : Dictation =>
        priorityRank b.priority < priorityRank a.priority ∨
          (priorityRank a.priority = priorityRank b.priority ∧
            a.created_at ≤ b.created_at))
      (get_work_queue table pf) ∧
    (∀ d : Dictation, d ∈ get_work_queue table none ↔
      d ∈ table ∧ d.deleted_at = none ∧
        (d.status = .pending ∨ d.status = .assigned) ∧
        d.secretary_id = none) := by
  constructor
  · exact List.sorted_insertionSort queueOrder _
  · intro d
    simp [get_work_queue, List.mem_filter, inWorkQueue, priorityMatches,
      and_assoc]

/-! ## C3: transcription content-update gate -/

/-- C3 counterexample: a transcription in `revised` state, edited by its
creating secretary, is rejected with Conflict — refuting the claim that
the update succeeds whenever the status is draft or revised. -/
theorem transcription_update_gate_counterexample :
    tRevised.secretary_id = sec5.id ∧ tRevised.status = .revised ∧
    update_transcription (some tRevised) sec5 "corrected text" false 300 =
      .error .conflict := by
  refine ⟨rfl, rfl, ?_⟩
  simp [update_transcription, tRevised, tDraft, sec5]

/-- C3 amended: a content update by the creating secretary succeeds
exactly when the status is `draft` or `rejected` (an edit in `rejected`
state also moves the transcription to `revised`), and fails with
Conflict when the status is `submitted`, `approved`, or `revised`. -/
theorem transcription_update_gate (t : Transcription) (caller : User)
    (c : String) (auto : Bool) (now : Nat)
    (hrole : caller.role = .secretary) (hown : t.secretary_id = caller.id) :
    (t.status = .draft →
      update_transcription (some t) caller c auto now =
        .ok (if auto then { t with content := c, last_autosave_at := some now }
             else { t with content := c })) ∧
    (t.status = .rejected →
      update_transcription (some t) caller c auto now =
        .ok (if auto then { t with content := c, last_autosave_at := some now,
                                   status := .revised }
             else { t with content := c, status := .revised })) ∧
    ((t.status = .submitted ∨ t.status = .approved ∨ t.status = .revised) →
      update_transcription (some t) caller c auto now = .error .conflict) := by
  refine ⟨fun hst => ?_, fun hst => ?_, fun hst => ?_⟩
  · cases auto <;> simp [update_transcription, hrole, hown, hst]
  · cases auto <;> simp [update_transcription, hrole, hown, hst]
  · have hng : ¬ (t.status = .draft ∨ t.status = .rejected) := by
      rcases hst with h | h | h <;> simp [h]
    simp [update_transcription, hrole, hown, hng]

/-- Witness for the amended C3: a manual edit of a draft succeeds, and an
edit of a rejected transcription succeeds and moves it to revised. -/
theorem transcription_update_gate_witness :
    update_transcription (some tDraft) sec5 "new text" false 300 =
      .ok { tDraft with content := "new text" } ∧
    update_transcription (some { tDraft with status := .rejected }) sec5
        "new text" false 300 =
      .ok { tDraft with content := "new text", status := .revised } :=
  ⟨(transcription_update_gate tDraft sec5 "new text" false 300 rfl rfl).1 rfl,
   (transcription_update_gate { tDraft with status := .rejected } sec5
     "new text" false 300 rfl rfl).2.1 rfl⟩

/-! ## C5: unclaim and the admin path -/

/-- C5 (code bug): the handler's dependency
`require_role(UserRole.SECRETARY)` rejects every admin before the
handler body runs, so an admin's unclaim of a claimed dictation returns
403 Forbidden, although the endpoint's docstring grants "Secretary who
claimed it, or admin" and the body carries a (dead) admin branch.  The
claiming secretary's unclaim works as specified, and unclaiming an
unclaimed dictation fails. -/
theorem unclaim_admin_role_gate_bug :
    unclaim_dictation (some dictClaimed) admin9 = .error .forbidden ∧
    unclaim_dictation (some dictClaimed) sec5 =
      .ok { dictClaimed with secretary_id := none, status := .pending,
                             claimed_at := none } ∧
    unclaim_dictation (some dict0) sec5 = .error .forbidden := by
  refine ⟨?_, ?_, ?_⟩ <;> simp [unclaim_dictation, admin9, sec5, dictClaimed, dict0]

/-! ## C6: transcription submission -/

/-- C6: for a draft-or-revised transcription owned by the calling
secretary, submission with blank (empty or all-whitespace) content fails
validation and changes nothing, while submission with non-blank content
marks the transcription submitted (with `submitted_at`) and cascades the
linked dictation to completed (with `completed_at`). -/
theorem submit_contract (t : Transcription) (d : Dictation) (caller : User)
    (now : Nat) (hrole : caller.role = .secretary)
    (hown : t.secretary_id = caller.id)
    (hst : t.status = .draft ∨ t.status = .revised) :
    (contentBlank t.content = true →
      submit_transcription (some t) (some d) caller now =
        .error .validationFailed ∧
      stateAfterSubmit t (some d) caller now = (t, some d)) ∧
    (contentBlank t.content = false →
      submit_transcription (some t) (some d) caller now =
        .ok ({ t with status := .submitted, submitted_at := some now },
             some { d with status := .completed, completed_at := some now })) := by
  constructor
  · intro hblank
    have he : submit_transcription (some t) (some d) caller now =
        .error .validationFailed := by
      simp [submit_transcription, hrole, hown, hst, hblank]
    exact ⟨he, by simp [stateAfterSubmit, resultOr, he]⟩
  · intro hblank
    simp [submit_transcription, hrole, hown, hst, hblank]

/-- Witness for C6: submitting the whitespace-only draft fails validation
and leaves both rows unchanged; submitting the non-blank draft succeeds
and completes the dictation. -/
theorem submit_contract_witness :
    submit_transcription (some tBlank) (some dictClaimed) sec5 400 =
      .error .validationFailed ∧
    stateAfterSubmit tBlank (some dictClaimed) sec5 400 =
      (tBlank, some dictClaimed) ∧
    submit_transcription (some tDraft) (some dictClaimed) sec5 400 =
      .ok ({ tDraft with status := .submitted, submitted_at := some 400 },
           some { dictClaimed with status := .completed,
                                   completed_at := some 400 }) :=
  ⟨((submit_contract tBlank dictClaimed sec5 400 rfl rfl (Or.inl rfl)).1
      (by decide)).1,
   ((submit_contract tBlank dictClaimed sec5 400 rfl rfl (Or.inl rfl)).1
      (by decide)).2,
   (submit_contract tDraft dictClaimed sec5 400 rfl rfl (Or.inl rfl)).2
      (by decide)⟩

/-! ## C7: byte-range streaming -/

/-- The bytes produced by the chunked read loop are exactly the first
`b` bytes from the seek position (all of the remainder if it is
shorter), whatever positive chunk size is configured. -/
theorem readChunks_flatten (rest : List Nat) (b c : Nat) (hc : 0 < c) :
    (readChunks rest b c).flatten = rest.take b := by
  rw [readChunks]
  by_cases h : rest.take (min c b) = []
  · simp only [h, dite_true, List.flatten_nil]
    have h2 := List.take_eq_nil_iff.mp h
    rw [eq_comm, List.take_eq_nil_iff]
    rcases h2 with h2 | h2
    · exact Or.inl (by omega)
    · exact Or.inr h2
  · simp only [h, dite_false, List.flatten_cons]
    rw [readChunks_flatten (rest.drop (min c b))
      (b - (rest.take (min c b)).length) c hc]
    have hkb : min c b ≤ b := Nat.min_le_right c b
    rcases le_or_lt (min c b) rest.length with hle | hlt
    · have hlen : (rest.take (min c b)).length = min c b := by
        simp [List.length_take]; omega
      rw [hlen, ← List.take_add]
      congr 1
      omega
    · have htk : rest.take (min c b) = rest :=
        List.take_of_length_le (Nat.le_of_lt hlt)
      have hdr : rest.drop (min c b) = [] :=
        List.drop_eq_nil_iff.mpr (Nat.le_of_lt hlt)
      rw [htk, hdr]
      simp
      omega
termination_by rest.length
decreasing_by
  rw [List.take_eq_nil_iff] at h
  push_neg at h
  have hr : 0 < rest.length := List.length_pos.mpr h.2
  have hk : 0 < min c b := Nat.pos_of_ne_zero h.1
  simp only [List.length_drop]
  omega

/-- C7: a range request with `0 ≤ s ≤ e < N` is served as a
partial-content (206) response whose body is exactly the bytes `s..e`
of the file, `e - s + 1` of them; the storage service raises its range
error exactly when `startByte < 0`, `endByte ≥ fileSize` or
`startByte > endByte`; and an open-ended range starting at or past the
file size is answered with 416 range-not-satisfiable. -/
theorem byte_range_contract (data : List Nat) (cs sN eN : Nat) (sI eI : Int)
    (hcs : 0 < cs) :
    (sN ≤ eN → eN < data.length →
      stream_audio data (some ⟨sN, some eN⟩) cs =
        .ok (206, (data.drop sN).take (eN - sN + 1)) ∧
      ((data.drop sN).take (eN - sN + 1)).length = eN - sN + 1) ∧
    (stream_audio_file data (some sI) (some eI) cs = .error .invalidRange ↔
      sI < 0 ∨ eI ≥ (data.length : Int) ∨ sI > eI) ∧
    (data.length ≤ sN →
      stream_audio data (some ⟨sN, none⟩) cs = .error .rangeNotSatisfiable) := by
  refine ⟨fun hse hlen => ?_, ?_, fun hge => ?_⟩
  · have hcond : ¬ (sN ≥ data.length ∨ eN ≥ data.length ∨ sN > eN) := by
      omega
    have hcond2 : ¬ ((sN : Int) < 0 ∨ (eN : Int) ≥ (data.length : Int) ∨
        (sN : Int) > (eN : Int)) := by
      omega
    have htn : ((eN : Int) - (sN : Int) + 1).toNat = eN - sN + 1 := by omega
    have hsn : ((sN : Int)).toNat = sN := by omega
    simp only [stream_audio, stream_audio_file, Option.getD_some, if_neg hcond,
      if_neg hcond2, htn, hsn]
    rw [readChunks_flatten _ _ _ hcs]
    refine ⟨rfl, ?_⟩
    simp only [List.length_take, List.length_drop]
    omega
  · by_cases h : sI < 0 ∨ eI ≥ (data.length : Int) ∨ sI > eI
    · simp only [stream_audio_file, Option.getD_some]
      rw [if_pos h]
      simp [h]
    · simp only [stream_audio_file, Option.getD_some]
      rw [if_neg h]
      simp [h]
  · have hcond : sN ≥ data.length ∨ data.length - 1 ≥ data.length ∨
        sN > data.length - 1 := Or.inl hge
    simp only [stream_audio]
    rw [if_pos hcond]

/-- Witness for C7: the request `bytes=0-99` on a 1000-byte file is
served with 206 and exactly 100 bytes; the request `bytes=2000-` on the
same file is answered 416; and the service accepts the range 0-99. -/
theorem byte_range_contract_witness :
    stream_audio (List.replicate 1000 (0 : Nat)) (some ⟨0, some 99⟩) 1048576 =
      .ok (206, ((List.replicate 1000 (0 : Nat)).drop 0).take (99 - 0 + 1)) ∧
    (((List.replicate 1000 (0 : Nat)).drop 0).take (99 - 0 + 1)).length =
      99 - 0 + 1 ∧
    stream_audio (List.replicate 1000 (0 : Nat)) (some ⟨2000, none⟩) 1048576 =
      .error .rangeNotSatisfiable :=
  ⟨((byte_range_contract (List.replicate 1000 0) 1048576 0 99 0 0
      (by decide)).1 (by decide)
      (by rw [List.length_replicate]; decide)).1,
   ((byte_range_contract (List.replicate 1000 0) 1048576 0 99 0 0
      (by decide)).1 (by decide)
      (by rw [List.length_replicate]; decide)).2,
   (byte_range_contract (List.replicate 1000 0) 1048576 2000 0 0 0
      (by decide)).2.2 (by rw [List.length_replicate]; decide)⟩

/-! ## Claims-dictionary lemmas shared by the token theorems -/

/-- A key absent from a claims dictionary is not found. -/
theorem find?_eq_none_of_absent (p : Claims) (k : String)
    (h : p.any (fun kv => kv.fst = k) = false) :
    (p.find? fun kv => kv.fst = k) = none := by
  rw [List.find?_eq_none]
  rw [List.any_eq_false] at h
  exact h

/-- Overwriting a present key makes its new value the first match. -/
theorem find?_map_override (p : Claims) (k : String) (v : JVal)
    (h : p.any (fun kv => kv.fst = k) = true) :
    ((p.map fun kv => if kv.fst = k then (k, v) else kv).find?
      fun kv => kv.fst = k) = some (k, v) := by
  induction p with
  | nil => simp at h
  | cons hd tl ih =>
    by_cases hh : hd.fst = k
    · simp [hh]
    · have ht : tl.any (fun kv => kv.fst = k) = true := by
        simpa [List.any_cons, hh] using h
      simp [hh, ih ht]

/-- Setting a key makes it retrievable with its new value (Python
`d[k] = v` followed by `d.get(k)`). -/
theorem getClaim_setClaim (p : Claims) (k : String) (v : JVal) :
    getClaim (setClaim p k v) k = some v := by
  unfold getClaim setClaim
  by_cases hany : p.any (fun kv => kv.fst = k) = true
  · rw [if_pos hany, find?_map_override p k v hany]
    rfl
  · have hany2 : p.any (fun kv => kv.fst = k) = false :=
      Bool.eq_false_iff.mpr hany
    rw [if_neg hany, List.find?_append, find?_eq_none_of_absent p k hany2]
    simp

/-- Overwriting one key leaves the first match for any other key as it
was. -/
theorem find?_map_override_ne (p : Claims) (k k2 : String) (v : JVal)
    (hne : k2 ≠ k) :
    ((p.map fun kv => if kv.fst = k then (k, v) else kv).find?
      fun kv => kv.fst = k2) = (p.find? fun kv => kv.fst = k2) := by
  induction p with
  | nil => rfl
  | cons hd tl ih =>
    rw [List.map_cons]
    by_cases hh : hd.fst = k
    · have h1 : ¬ ((k, v).fst = k2) := fun hc => hne hc.symm
      have h2 : ¬ (hd.fst = k2) := by
        rw [hh]
        exact fun hc => hne hc.symm
      rw [if_pos hh, List.find?_cons_of_neg _ (by simpa using h1),
        List.find?_cons_of_neg _ (by simpa using h2)]
      exact ih
    · rw [if_neg hh]
      by_cases hk2 : hd.fst = k2
      · rw [List.find?_cons_of_pos _ (by simpa using hk2),
          List.find?_cons_of_pos _ (by simpa using hk2)]
      · rw [List.find?_cons_of_neg _ (by simpa using hk2),
          List.find?_cons_of_neg _ (by simpa using hk2)]
        exact ih

/-- Setting one key does not disturb the lookup of a different key. -/
theorem getClaim_setClaim_ne (p : Claims) (k k2 : String) (v : JVal)
    (hne : k2 ≠ k) :
    getClaim (setClaim p k v) k2 = getClaim p k2 := by
  unfold getClaim setClaim
  by_cases hany : p.any (fun kv => kv.fst = k) = true
  · rw [if_pos hany, find?_map_override_ne p k k2 v hne]
  · have hany2 : p.any (fun kv => kv.fst = k) = false :=
      Bool.eq_false_iff.mpr hany
    rw [if_neg hany, List.find?_append]
    simp [Ne.symm hne]

/-- Setting an absent key appends it. -/
theorem setClaim_append (p : Claims) (k : String) (v : JVal)
    (h : p.any (fun kv => kv.fst = k) = false) :
    setClaim p k v = p ++ [(k, v)] := by
  simp [setClaim, h]

/-- Unfolding of `jwtDecode` on a structurally well-formed token. -/
theorem jwtDecode_signed (a : String) (p : Claims) (sg : Sig)
    (secret alg : String) (now : Nat) :
    jwtDecode (.signed a p sg) secret alg now =
      if a = alg ∧ sg = ⟨secret, a, p⟩ then
        match getClaim p "exp" with
        | some (.n e) => if e < now then none else some p
        | some (.s _) => none
        | none => some p
      else none := rfl

/-- A decoded token is either rejected or yields exactly the payload the
token carries. -/
theorem jwtDecode_none_or_payload (tok : Token) (secret alg : String)
    (now : Nat) :
    jwtDecode tok secret alg now = none ∨
    ∃ a p sg, tok = .signed a p sg ∧ jwtDecode tok secret alg now = some p := by
  cases tok with
  | malformed s => exact Or.inl rfl
  | signed a p sg =>
    rw [jwtDecode_signed]
    by_cases hc : a = alg ∧ sg = ⟨secret, a, p⟩
    · rw [if_pos hc]
      cases hexp : getClaim p "exp" with
      | none => exact Or.inr ⟨a, p, sg, rfl, rfl⟩
      | some v =>
        cases v with
        | s w => exact Or.inl rfl
        | n e =>
          by_cases he : e < now
          · exact Or.inl (if_pos he)
          · exact Or.inr ⟨a, p, sg, rfl, if_neg he⟩
    · rw [if_neg hc]
      exact Or.inl rfl

/-! ## C8: token round trip and rejection of forged or stale tokens -/

/-- C8: verifying a fresh access token recovers the claims exactly, plus
the `exp` and `type` fields appended; and verification returns invalid
(`none`, not an exception) for a token whose payload was tampered with
under the original signature, for a verifier keyed with a different
secret, for a verifier expecting a different algorithm, for a token past
its expiry, and for a malformed token string. -/
theorem token_roundtrip (cfg : SecuritySettings) (data : Claims)
    (issued t : Nat)
    (hexp : data.any (fun kv => kv.fst = "exp") = false)
    (htype : data.any (fun kv => kv.fst = "type") = false)
    (hfresh : t ≤ issued + cfg.ACCESS_TOKEN_EXPIRE_MINUTES * 60) :
    (verify_token cfg (create_access_token cfg data issued none) t =
      some (data ++
        [("exp", .n (issued + cfg.ACCESS_TOKEN_EXPIRE_MINUTES * 60)),
         ("type", .s "access")])) ∧
    (∀ p2 : Claims,
      p2 ≠ data ++
        [("exp", .n (issued + cfg.ACCESS_TOKEN_EXPIRE_MINUTES * 60)),
         ("type", .s "access")] →
      verify_token cfg
        (.signed cfg.ALGORITHM p2
          ⟨cfg.SECRET_KEY, cfg.ALGORITHM,
           data ++
             [("exp", .n (issued + cfg.ACCESS_TOKEN_EXPIRE_MINUTES * 60)),
              ("type", .s "access")]⟩) t = none) ∧
    (∀ s2, s2 ≠ cfg.SECRET_KEY →
      verify_token { cfg with SECRET_KEY := s2 }
        (create_access_token cfg data issued none) t = none) ∧
    (∀ a2, a2 ≠ cfg.ALGORITHM →
      verify_token { cfg with ALGORITHM := a2 }
        (create_access_token cfg data issued none) t = none) ∧
    (∀ t2, issued + cfg.ACCESS_TOKEN_EXPIRE_MINUTES * 60 < t2 →
      verify_token cfg (create_access_token cfg data issued none) t2 = none) ∧
    (∀ raw, verify_token cfg (.malformed raw) t = none) := by
  set E := issued + cfg.ACCESS_TOKEN_EXPIRE_MINUTES * 60 with hE
  have htype2 : (data ++ [("exp", JVal.n E)]).any
      (fun kv => kv.fst = "type") = false := by
    simp [List.any_append, htype]
  have hpayload : setClaim (setClaim data "exp" (.n E)) "type" (.s "access") =
      data ++ [("exp", .n E), ("type", .s "access")] := by
    rw [setClaim_append data "exp" (.n E) hexp,
      setClaim_append _ "type" (.s "access") htype2, List.append_assoc]
    rfl
  have hgetexp : getClaim (data ++ [("exp", JVal.n E), ("type", JVal.s "access")])
      "exp" = some (.n E) := by
    simp [getClaim, List.find?_append, find?_eq_none_of_absent data "exp" hexp]
  have henc : create_access_token cfg data issued none =
      .signed cfg.ALGORITHM (data ++ [("exp", .n E), ("type", .s "access")])
        ⟨cfg.SECRET_KEY, cfg.ALGORITHM,
         data ++ [("exp", .n E), ("type", .s "access")]⟩ := by
    simp [create_access_token, jwtEncode, hpayload]
  refine ⟨?_, fun p2 hp2 => ?_, fun s2 hs2 => ?_, fun a2 ha2 => ?_,
    fun t2 ht2 => ?_, fun raw => rfl⟩
  · rw [henc, verify_token, jwtDecode_signed, if_pos ⟨rfl, rfl⟩, hgetexp]
    exact if_neg (by omega)
  · rw [verify_token, jwtDecode_signed, if_neg]
    rintro ⟨-, hsg⟩
    exact hp2 (congrArg Sig.payload hsg).symm
  · rw [henc, verify_token, jwtDecode_signed, if_neg]
    rintro ⟨-, hsg⟩
    exact hs2 ((congrArg Sig.secret hsg)).symm
  · rw [henc, verify_token, jwtDecode_signed, if_neg]
    rintro ⟨ha, -⟩
    exact ha2 ha.symm
  · rw [henc, verify_token, jwtDecode_signed, if_pos ⟨rfl, rfl⟩, hgetexp]
    exact if_pos (by omega)

/-- Witness for C8: the round trip and every rejection case at the
sample configuration, claims and times. -/
theorem token_roundtrip_witness :
    verify_token cfg0 (create_access_token cfg0 data0 0 none) 60 =
      some (data0 ++ [("exp", .n (0 + cfg0.ACCESS_TOKEN_EXPIRE_MINUTES * 60)),
                      ("type", .s "access")]) ∧
    verify_token cfg0 (create_access_token cfg0 data0 0 none) 9000 = none ∧
    verify_token { cfg0 with SECRET_KEY := "other-secret" }
      (create_access_token cfg0 data0 0 none) 60 = none ∧
    verify_token { cfg0 with ALGORITHM := "none" }
      (create_access_token cfg0 data0 0 none) 60 = none ∧
    verify_token cfg0 (.malformed "not-a-jwt") 60 = none :=
  ⟨(token_roundtrip cfg0 data0 0 60 (by decide) (by decide) (by decide)).1,
   (token_roundtrip cfg0 data0 0 60 (by decide) (by decide)
     (by decide)).2.2.2.2.1 9000 (by decide),
   (token_roundtrip cfg0 data0 0 60 (by decide) (by decide)
     (by decide)).2.2.1 "other-secret" (by decide),
   (token_roundtrip cfg0 data0 0 60 (by decide) (by decide)
     (by decide)).2.2.2.1 "none" (by decide),
   (token_roundtrip cfg0 data0 0 60 (by decide) (by decide)
     (by decide)).2.2.2.2.2 "not-a-jwt"⟩

/-! ## C4: where the token type is checked -/

/-- C4 counterexample: `verify_token` accepts a refresh token presented
where an access token is expected — it returns the payload (whose `type`
claim is `refresh`) rather than invalid, refuting the claim that token
verification rejects a mismatched `type`. -/
theorem verify_token_type_counterexample :
    verify_token cfg0 (create_refresh_token cfg0 data0 0) 60 =
      some (data0 ++ [("exp", .n 604800), ("type", .s "refresh")]) ∧
    getClaim (data0 ++ [("exp", .n 604800), ("type", .s "refresh")]) "type" =
      some (.s "refresh") := by
  constructor <;> rfl

/-- C4 amended: `verify_token` rejects only a bad signature, a wrong
algorithm, a passed expiry or a malformed token; the `type` check is
performed by the consuming endpoints, which reject a wrong-type token
with Unauthorized — `get_current_user` rejects every refresh token and
the refresh endpoint rejects every access token, under any verifier
settings and user table. -/
theorem token_type_checked_at_use (cfg cfg2 : SecuritySettings)
    (d1 d2 : Claims) (issued t : Nat) (ed : Option Nat)
    (fu : Nat → Option User) :
    (get_current_user cfg2 (create_refresh_token cfg d1 issued) t fu =
      .error .unauthorized) ∧
    (refresh_access_token cfg2 (create_access_token cfg d2 issued ed) t fu =
      .error .unauthorized) ∧
    (∀ s2, s2 ≠ cfg.SECRET_KEY →
      verify_token { cfg with SECRET_KEY := s2 }
        (create_refresh_token cfg d1 issued) t = none) ∧
    (∀ t2, issued + cfg.REFRESH_TOKEN_EXPIRE_DAYS * 86400 < t2 →
      verify_token cfg (create_refresh_token cfg d1 issued) t2 = none) := by
  refine ⟨?_, ?_, fun s2 hs2 => ?_, fun t2 ht2 => ?_⟩
  · rcases jwtDecode_none_or_payload (create_refresh_token cfg d1 issued)
        cfg2.SECRET_KEY cfg2.ALGORITHM t with hnone | ⟨a, p, sg, htok, hsome⟩
    · simp [get_current_user, verify_token, hnone]
    · have hp : p = setClaim
          (setClaim d1 "exp" (.n (issued + cfg.REFRESH_TOKEN_EXPIRE_DAYS * 86400)))
          "type" (.s "refresh") := by
        have : create_refresh_token cfg d1 issued = .signed a p sg := htok
        rw [create_refresh_token, jwtEncode] at this
        exact (Token.signed.inj this).2.1.symm
      have hty : getClaim p "type" = some (.s "refresh") := by
        rw [hp]
        exact getClaim_setClaim _ _ _
      simp [get_current_user, verify_token, hsome, hty]
  · rcases jwtDecode_none_or_payload (create_access_token cfg d2 issued ed)
        cfg2.SECRET_KEY cfg2.ALGORITHM t with hnone | ⟨a, p, sg, htok, hsome⟩
    · simp [refresh_access_token, verify_token, hnone]
    · have hty : getClaim p "type" = some (.s "access") := by
        have h2 : create_access_token cfg d2 issued ed = .signed a p sg := htok
        simp only [create_access_token.eq_def, jwtEncode] at h2
        rw [← (Token.signed.inj h2).2.1]
        exact getClaim_setClaim _ _ _
      simp [refresh_access_token, verify_token, hsome, hty]
  · rw [create_refresh_token, jwtEncode, verify_token, jwtDecode_signed, if_neg]
    rintro ⟨-, hsg⟩
    exact hs2 ((congrArg Sig.secret hsg)).symm
  · have hgetexp : getClaim
        (setClaim (setClaim d1 "exp"
           (.n (issued + cfg.REFRESH_TOKEN_EXPIRE_DAYS * 86400)))
          "type" (.s "refresh")) "exp" =
        some (.n (issued + cfg.REFRESH_TOKEN_EXPIRE_DAYS * 86400)) := by
      rw [getClaim_setClaim_ne _ _ _ _ (by decide)]
      exact getClaim_setClaim _ _ _
    rw [create_refresh_token, jwtEncode, verify_token, jwtDecode_signed,
      if_pos ⟨rfl, rfl⟩, hgetexp]
    exact if_pos (by omega)

/-- Witness for the amended C4: at the sample configuration, a refresh
token is rejected by `get_current_user`, an access token is rejected by
the refresh endpoint, and the refresh token also fails verification
under a different secret and after its expiry. -/
theorem token_type_checked_at_use_witness :
    get_current_user cfg0 (create_refresh_token cfg0 data0 0) 60
      (fun _ => some sec5) = .error .unauthorized ∧
    refresh_access_token cfg0 (create_access_token cfg0 data0 0 none) 60
      (fun _ => some sec5) = .error .unauthorized ∧
    verify_token { cfg0 with SECRET_KEY := "other-secret" }
      (create_refresh_token cfg0 data0 0) 60 = none ∧
    verify_token cfg0 (create_refresh_token cfg0 data0 0) 700000 = none :=
  ⟨(token_type_checked_at_use cfg0 cfg0 data0 data0 0 60 none
      (fun _ => some sec5)).1,
   (token_type_checked_at_use cfg0 cfg0 data0 data0 0 60 none
      (fun _ => some sec5)).2.1,
   (token_type_checked_at_use cfg0 cfg0 data0 data0 0 60 none
      (fun _ => some sec5)).2.2.1 "other-secret" (by decide),
   (token_type_checked_at_use cfg0 cfg0 data0 data0 0 700000 none
      (fun _ => some sec5)).2.2.2 700000 (by decide)⟩

/-! ## C9: authorization fallback on transport failure -/

/-- C9: when the HTTP call to the policy evaluator fails in transport
(connection error or timeout), `evaluate_policy` does not raise — it
returns the hardcoded fallback table's verdict; and that table allows
exactly what the specification lists: admin everything; doctor
create/read/update/delete on dictations they own; secretary read/claim
on any dictation and create/read/update/submit on transcriptions they
own; doctor read/approve/reject on any transcription; everything else
denied. -/
theorem opa_fallback_contract (role action rtype : String) (uid : Nat)
    (owner : Option Nat) :
    evaluate_policy .transportFailure role action rtype uid owner =
      .ok (fallback_authorization role action rtype uid owner) ∧
    (fallback_authorization role action rtype uid owner = true ↔
      specFallbackRules role action rtype uid owner) := by
  refine ⟨rfl, ?_⟩
  unfold fallback_authorization specFallbackRules
  split_ifs with h1 h2 h3 h4 h5
  · exact ⟨fun _ => Or.inl h1, fun _ => rfl⟩
  · obtain ⟨ht, ha, hr⟩ := h2
    rw [decide_eq_true_eq]
    constructor
    · intro ho
      exact Or.inr (Or.inl ⟨ht, hr, ha, ho⟩)
    · rintro (h | ⟨-, -, -, ho⟩ | ⟨-, hr2, -⟩ | ⟨ht2, -, -, -⟩ | ⟨ht2, -, -⟩)
      · exact absurd (hr.symm.trans h) (by decide)
      · exact ho
      · exact absurd (hr.symm.trans hr2) (by decide)
      · exact absurd (ht.symm.trans ht2) (by decide)
      · exact absurd (ht.symm.trans ht2) (by decide)
  · obtain ⟨ht, ha, hr⟩ := h3
    exact ⟨fun _ => Or.inr (Or.inr (Or.inl ⟨ht, hr, ha⟩)), fun _ => rfl⟩
  · obtain ⟨ht, ha, hr⟩ := h4
    rw [decide_eq_true_eq]
    constructor
    · intro ho
      exact Or.inr (Or.inr (Or.inr (Or.inl ⟨ht, hr, ha, ho⟩)))
    · rintro (h | ⟨ht2, -, -, -⟩ | ⟨ht2, -, -⟩ | ⟨-, -, -, ho⟩ | ⟨-, hr2, -⟩)
      · exact absurd (hr.symm.trans h) (by decide)
      · exact absurd (ht.symm.trans ht2) (by decide)
      · exact absurd (ht.symm.trans ht2) (by decide)
      · exact ho
      · exact absurd (hr.symm.trans hr2) (by decide)
  · obtain ⟨ht, ha, hr⟩ := h5
    exact ⟨fun _ => Or.inr (Or.inr (Or.inr (Or.inr ⟨ht, hr, ha⟩))),
      fun _ => rfl⟩
  · constructor
    · intro hf
      exact absurd hf (by decide)
    · rintro (h | ⟨ht, hr, ha, ho⟩ | ⟨ht, hr, ha⟩ | ⟨ht, hr, ha, ho⟩ |
        ⟨ht, hr, ha⟩)
      · exact absurd h h1
      · exact absurd ⟨ht, ha, hr⟩ h2
      · exact absurd ⟨ht, ha, hr⟩ h3
      · exact absurd ⟨ht, ha, hr⟩ h4
      · exact absurd ⟨ht, ha, hr⟩ h5

/-! ## C10: status field silently skipped for non-admin updates -/

/-- C10: a metadata update by a non-admin caller that includes a status
value does not fail: the handler reports success, leaves the status
unchanged, and applies every other supplied field. -/
theorem update_status_frame (d : Dictation) (caller : User)
    (upd : DictationUpdate) (s : DictationStatus)
    (hnadmin : caller.role ≠ .admin) (hstatus : upd.status = some s)
    (hlive : d.deleted_at = none) :
    update_dictation (some d) caller true upd =
      .ok { d with
             title := match upd.title with
               | some v => some v
               | none => d.title,
             patient_reference := match upd.patient_reference with
               | some v => some v
               | none => d.patient_reference,
             notes := match upd.notes with
               | some v => some v
               | none => d.notes,
             priority := match upd.priority with
               | some v => v
               | none => d.priority } := by
  obtain ⟨ot, opr, onotes, op, ost⟩ := upd
  simp only at hstatus
  subst hstatus
  cases ot <;> cases opr <;> cases onotes <;> cases op <;>
    (cases d; simp_all [update_dictation])

/-- Witness for C10: doctor 2 (the owner, not an admin) sends an update
carrying a new title and a status value; the title is applied, the
status change is silently dropped, and the call succeeds. -/
theorem update_status_frame_witness :
    update_dictation (some dict0) ⟨2, .doctor, true⟩ true
        { title := some "Knee exam", status := some .completed } =
      .ok { dict0 with title := some "Knee exam" } :=
  update_status_frame dict0 ⟨2, .doctor, true⟩
    { title := some "Knee exam", status := some .completed } .completed
    (by decide) rfl rfl

end Dictat
